import Mathlib

/-!
Verification of the Skill-Match & Fit-Assessment Engine of the
career-assistant application.

The definitions below are a shallow embedding of the Python source:
* `app/main.py` — skill-match computation (`matched_skills`,
  `missing_skills`, `extra_skills`, `match_score`) and the NER-extraction
  fallback wrapper around `extract_skills_ner` / `extract_skills`;
* `src/interview_prep.py` — `calculate_interview_readiness_score` and
  `_create_fallback_evaluation`;
* the fit classifier `predict_fit` (module `fit_classifier`, absent from
  the sources; its fallback path is modelled from the specification).

Python sets of skill strings become `Finset String`; Python floats become
`ℚ`; dictionaries with possibly-missing keys become structures with
`Option` fields; `try/except` around the NER collaborator becomes an
`Except`-valued collaborator.
-/

namespace CareerAssistant

/-! ### Match engine (app/main.py, lines 816–822)

```python
matched_skills = set(resume_skills) & set(jd_skills)
missing_skills = set(jd_skills) - set(resume_skills)
extra_skills = set(resume_skills) - set(jd_skills)
match_score = len(matched_skills) / len(jd_skills) * 100 if jd_skills else 0
```
-/

def matched_skills (resume_skills jd_skills : Finset String) : Finset String :=
  resume_skills ∩ jd_skills

def missing_skills (resume_skills jd_skills : Finset String) : Finset String :=
  jd_skills \ resume_skills

def extra_skills (resume_skills jd_skills : Finset String) : Finset String :=
  resume_skills \ jd_skills

def match_score (resume_skills jd_skills : Finset String) : ℚ :=
  if jd_skills.Nonempty then
    ((matched_skills resume_skills jd_skills).card : ℚ) / (jd_skills.card : ℚ) * 100
  else 0

end CareerAssistant

/-- C1: for every pair of skill sets A (resume) and B (job), the match
computation returns `matched = A ∩ B`, `missing = B − A` and
`extra = A − B`, characterised extensionally by membership. -/
theorem spec_C1_match_partitions (A B : Finset String) :
    (∀ x, x ∈ CareerAssistant.matched_skills A B ↔ x ∈ A ∧ x ∈ B) ∧
    (∀ x, x ∈ CareerAssistant.missing_skills A B ↔ x ∈ B ∧ x ∉ A) ∧
    (∀ x, x ∈ CareerAssistant.extra_skills A B ↔ x ∈ A ∧ x ∉ B) := by
  refine ⟨fun x => ?_, fun x => ?_, fun x => ?_⟩
  · simp [CareerAssistant.matched_skills]
  · simp [CareerAssistant.missing_skills, and_comm]
  · simp [CareerAssistant.extra_skills]

/-- C2: the match score is `0` when the job skill set is empty, and
otherwise equals `100 * |matched| / |job_skills|`. -/
theorem spec_C2_match_score (A B : Finset String) :
    (B = ∅ → CareerAssistant.match_score A B = 0) ∧
    (B ≠ ∅ → CareerAssistant.match_score A B =
      100 * ((CareerAssistant.matched_skills A B).card : ℚ) / (B.card : ℚ)) := by
  constructor
  · intro h
    simp [CareerAssistant.match_score, h]
  · intro h
    have hne : B.Nonempty := Finset.nonempty_iff_ne_empty.mpr h
    simp only [CareerAssistant.match_score, if_pos hne]
    ring

/-- Witness for C2 at concrete inputs. -/
theorem spec_C2_match_score_witness :
    CareerAssistant.match_score {"python", "sql"} ∅ = 0 ∧
    CareerAssistant.match_score {"python", "sql"} {"python", "docker", "aws"} =
      100 * ((CareerAssistant.matched_skills {"python", "sql"}
        {"python", "docker", "aws"}).card : ℚ) /
        (({"python", "docker", "aws"} : Finset String).card : ℚ) :=
  ⟨(spec_C2_match_score {"python", "sql"} ∅).1 rfl,
   (spec_C2_match_score {"python", "sql"} {"python", "docker", "aws"}).2 (by decide)⟩

/-- C7: for every resume skill set A and nonempty job skill set B, the
match score lies in `[0, 100]`, and it equals `100` iff `B ⊆ A`. -/
theorem spec_C7_score_bounds (A B : Finset String) (hB : B.Nonempty) :
    0 ≤ CareerAssistant.match_score A B ∧
    CareerAssistant.match_score A B ≤ 100 ∧
    (CareerAssistant.match_score A B = 100 ↔ B ⊆ A) := by
  have hcard : 0 < (B.card : ℚ) := by
    exact_mod_cast Finset.card_pos.mpr hB
  have hsub : CareerAssistant.matched_skills A B ⊆ B :=
    Finset.inter_subset_right
  have hle : ((CareerAssistant.matched_skills A B).card : ℚ) ≤ (B.card : ℚ) := by
    exact_mod_cast Finset.card_le_card hsub
  have hscore : CareerAssistant.match_score A B =
      ((CareerAssistant.matched_skills A B).card : ℚ) / (B.card : ℚ) * 100 := by
    simp [CareerAssistant.match_score, hB]
  refine ⟨?_, ?_, ?_⟩
  · rw [hscore]
    positivity
  · rw [hscore]
    have h1 : ((CareerAssistant.matched_skills A B).card : ℚ) / (B.card : ℚ) ≤ 1 :=
      (div_le_one hcard).mpr hle
    nlinarith
  · rw [hscore]
    constructor
    · intro h
      have hdiv : ((CareerAssistant.matched_skills A B).card : ℚ) / (B.card : ℚ) = 1 := by
        nlinarith
      have hcnat : (CareerAssistant.matched_skills A B).card = B.card := by
        field_simp at hdiv
        exact_mod_cast hdiv
      have heq : CareerAssistant.matched_skills A B = B :=
        Finset.eq_of_subset_of_card_le hsub (le_of_eq hcnat.symm)
      have : A ∩ B = B := heq
      exact Finset.inter_eq_right.mp this
    · intro h
      have heq : CareerAssistant.matched_skills A B = B := by
        simpa [CareerAssistant.matched_skills] using Finset.inter_eq_right.mpr h
      rw [heq]
      field_simp

/-- Witness for C7 at a concrete input. -/
theorem spec_C7_score_bounds_witness :
    0 ≤ CareerAssistant.match_score {"python", "sql"} {"python"} ∧
    CareerAssistant.match_score {"python", "sql"} {"python"} ≤ 100 ∧
    (CareerAssistant.match_score {"python", "sql"} {"python"} = 100 ↔
      ({"python"} : Finset String) ⊆ {"python", "sql"}) :=
  spec_C7_score_bounds {"python", "sql"} {"python"} (by decide)

namespace CareerAssistant

/-! ### Readiness aggregator (src/interview_prep.py, lines 248–283)

An evaluation dict is read only through `eval_data.get('overall_score', 0)`,
so it is modelled as a record whose `overall_score` field may be absent.
Python `round(x, 1)` rounds half to even, modelled by `pyRound1`.
-/

structure Evaluation where
  overall_score : Option ℚ
deriving DecidableEq

structure ReadinessResult where
  overall_score : ℚ
  readiness_level : String
  recommendations : List String
  total_questions : Option ℕ
deriving DecidableEq

def roundHalfEven (q : ℚ) : ℤ :=
  if q - ⌊q⌋ < 1/2 then ⌊q⌋
  else if 1/2 < q - ⌊q⌋ then ⌊q⌋ + 1
  else if ⌊q⌋ % 2 = 0 then ⌊q⌋ else ⌊q⌋ + 1

def pyRound1 (q : ℚ) : ℚ := (roundHalfEven (10 * q) : ℚ) / 10

def calculate_interview_readiness_score (evaluations : List Evaluation) :
    ReadinessResult :=
  if evaluations.isEmpty then
    { overall_score := 0
      readiness_level := "Not Started"
      recommendations := ["Start practicing interview questions"]
      total_questions := none }
  else
    let total_score := (evaluations.map (fun e => e.overall_score.getD 0)).sum
    let avg_score := total_score / (evaluations.length : ℚ)
    let levelRecs : String × List String :=
      if avg_score ≥ 90 then
        ("Excellent", ["You\x27re well-prepared! Focus on company-specific research"])
      else if avg_score ≥ 80 then
        ("Good", ["Strong preparation. Practice a few more questions"])
      else if avg_score ≥ 70 then
        ("Satisfactory", ["Good start. Focus on technical depth and examples"])
      else if avg_score ≥ 60 then
        ("Needs Improvement", ["Practice more. Focus on STAR method and technical details"])
      else
        ("Requires Significant Work", ["Intensive practice needed. Consider mock interviews"])
    { overall_score := pyRound1 avg_score
      readiness_level := levelRecs.1
      recommendations := levelRecs.2
      total_questions := some evaluations.length }

/-- Wraps a bare score as an evaluation dict carrying that score. -/
def mkEval (q : ℚ) : Evaluation := { overall_score := some q }

lemma map_mkEval_getD (scores : List ℚ) :
    (scores.map mkEval).map (fun e => e.overall_score.getD 0) = scores := by
  induction scores with
  | nil => rfl
  | cons a l ih => simpa [mkEval] using ih

end CareerAssistant

/-- C3: for every nonempty list of scores, the readiness overall_score is
the mean rounded to one decimal place and the level is bucketed at the
thresholds 90/80/70/60 on the (unrounded) mean; in particular
`assess [50, 60, 70]` yields `60.0` and level `Needs Improvement`. -/
theorem spec_C3_readiness_mean_levels :
    (∀ scores : List ℚ, scores ≠ [] →
      (CareerAssistant.calculate_interview_readiness_score
          (scores.map CareerAssistant.mkEval)).overall_score =
        CareerAssistant.pyRound1 (scores.sum / (scores.length : ℚ)) ∧
      (CareerAssistant.calculate_interview_readiness_score
          (scores.map CareerAssistant.mkEval)).readiness_level =
        (if scores.sum / (scores.length : ℚ) ≥ 90 then "Excellent"
         else if scores.sum / (scores.length : ℚ) ≥ 80 then "Good"
         else if scores.sum / (scores.length : ℚ) ≥ 70 then "Satisfactory"
         else if scores.sum / (scores.length : ℚ) ≥ 60 then "Needs Improvement"
         else "Requires Significant Work")) ∧
    (CareerAssistant.calculate_interview_readiness_score
        ([50, 60, 70].map CareerAssistant.mkEval)).overall_score = 60 ∧
    (CareerAssistant.calculate_interview_readiness_score
        ([50, 60, 70].map CareerAssistant.mkEval)).readiness_level =
      "Needs Improvement" := by
  have hgen : ∀ scores : List ℚ, scores ≠ [] →
      (CareerAssistant.calculate_interview_readiness_score
          (scores.map CareerAssistant.mkEval)).overall_score =
        CareerAssistant.pyRound1 (scores.sum / (scores.length : ℚ)) ∧
      (CareerAssistant.calculate_interview_readiness_score
          (scores.map CareerAssistant.mkEval)).readiness_level =
        (if scores.sum / (scores.length : ℚ) ≥ 90 then "Excellent"
         else if scores.sum / (scores.length : ℚ) ≥ 80 then "Good"
         else if scores.sum / (scores.length : ℚ) ≥ 70 then "Satisfactory"
         else if scores.sum / (scores.length : ℚ) ≥ 60 then "Needs Improvement"
         else "Requires Significant Work") := by
    intro scores h
    have hne : (scores.map CareerAssistant.mkEval).isEmpty = false := by
      cases scores with
      | nil => exact absurd rfl h
      | cons a l => rfl
    have hmap := CareerAssistant.map_mkEval_getD scores
    constructor
    · simp only [CareerAssistant.calculate_interview_readiness_score, hne,
        Bool.false_eq_true, if_false, hmap, List.length_map]
    · simp only [CareerAssistant.calculate_interview_readiness_score, hne,
        Bool.false_eq_true, if_false, hmap, List.length_map]
      split_ifs <;> rfl
  have hmean : (([50, 60, 70] : List ℚ).sum / ((([50, 60, 70] : List ℚ).length : ℕ) : ℚ)) =
      60 := by
    norm_num
  have h1 := (hgen [50, 60, 70] (by simp)).1
  have h2 := (hgen [50, 60, 70] (by simp)).2
  rw [hmean] at h1 h2
  refine ⟨hgen, ?_, ?_⟩
  · rw [h1]
    norm_num [CareerAssistant.pyRound1, CareerAssistant.roundHalfEven]
  · rw [h2]
    norm_num

/-- Witness for C3 at the concrete input `[50, 60, 70]`. -/
theorem spec_C3_readiness_mean_levels_witness :
    (CareerAssistant.calculate_interview_readiness_score
        (([50, 60, 70] : List ℚ).map CareerAssistant.mkEval)).overall_score =
      CareerAssistant.pyRound1 (([50, 60, 70] : List ℚ).sum /
        ((([50, 60, 70] : List ℚ).length : ℚ))) ∧
    (CareerAssistant.calculate_interview_readiness_score
        (([50, 60, 70] : List ℚ).map CareerAssistant.mkEval)).readiness_level =
      (if (([50, 60, 70] : List ℚ).sum / ((([50, 60, 70] : List ℚ).length : ℚ))) ≥ 90
        then "Excellent"
       else if (([50, 60, 70] : List ℚ).sum / ((([50, 60, 70] : List ℚ).length : ℚ))) ≥ 80
        then "Good"
       else if (([50, 60, 70] : List ℚ).sum / ((([50, 60, 70] : List ℚ).length : ℚ))) ≥ 70
        then "Satisfactory"
       else if (([50, 60, 70] : List ℚ).sum / ((([50, 60, 70] : List ℚ).length : ℚ))) ≥ 60
        then "Needs Improvement"
       else "Requires Significant Work") :=
  spec_C3_readiness_mean_levels.1 [50, 60, 70] (by decide)

/-- C4 counterexample: the empty-input result of
`calculate_interview_readiness_score` carries no question count at all
(the Python dict in the empty branch has no `total_questions` key), so it
is not `0` as the claim states. -/
theorem spec_C4_counterexample :
    ¬ ((CareerAssistant.calculate_interview_readiness_score []).total_questions =
      some 0) := by
  simp [CareerAssistant.calculate_interview_readiness_score]

/-- C4 (amended): assessing an empty sequence of evaluations returns
overall_score `0`, level `Not Started` and the single recommendation
`Start practicing interview questions`; the result omits the question
count (the empty branch of the source dict has no `total_questions`
key). -/
theorem spec_C4_empty_assessment :
    CareerAssistant.calculate_interview_readiness_score [] =
      { overall_score := 0
        readiness_level := "Not Started"
        recommendations := ["Start practicing interview questions"]
        total_questions := none } := rfl

/-- C8: the readiness assessment depends only on the multiset of
evaluations: permuting the input list leaves the whole result (score,
level, recommendations, question count) unchanged. -/
theorem spec_C8_perm_invariant (l₁ l₂ : List CareerAssistant.Evaluation)
    (h : l₁.Perm l₂) :
    CareerAssistant.calculate_interview_readiness_score l₁ =
      CareerAssistant.calculate_interview_readiness_score l₂ := by
  cases l₁ with
  | nil =>
    have h2 : l₂ = [] := h.symm.eq_nil
    rw [h2]
  | cons a l =>
    have hlen : (a :: l).length = l₂.length := h.length_eq
    have hsum : ((a :: l).map (fun e => e.overall_score.getD 0)).sum =
        (l₂.map (fun e => e.overall_score.getD 0)).sum :=
      (h.map (fun e => e.overall_score.getD 0)).sum_eq
    have hne2 : l₂.isEmpty = false := by
      cases l₂ with
      | nil => exact absurd hlen (by simp)
      | cons b m => rfl
    simp only [CareerAssistant.calculate_interview_readiness_score,
      List.isEmpty_cons, hne2, Bool.false_eq_true, if_false, hsum, hlen]

/-- Witness for C8 at a concrete permutation. -/
theorem spec_C8_perm_invariant_witness :
    CareerAssistant.calculate_interview_readiness_score
        [CareerAssistant.mkEval 80, CareerAssistant.mkEval 60] =
      CareerAssistant.calculate_interview_readiness_score
        [CareerAssistant.mkEval 60, CareerAssistant.mkEval 80] :=
  spec_C8_perm_invariant _ _ (List.Perm.swap _ _ _)

/-- C9: an evaluation without an `overall_score` key does not make the
aggregation fail; it behaves exactly like an evaluation whose score is
`0`, and it still counts as one question. -/
theorem spec_C9_missing_score (pre post : List CareerAssistant.Evaluation)
    (e : CareerAssistant.Evaluation) (h : e.overall_score = none) :
    CareerAssistant.calculate_interview_readiness_score (pre ++ e :: post) =
      CareerAssistant.calculate_interview_readiness_score
        (pre ++ { overall_score := some 0 } :: post) ∧
    (CareerAssistant.calculate_interview_readiness_score
        (pre ++ e :: post)).total_questions =
      some (pre.length + post.length + 1) := by
  have hsum : ((pre ++ e :: post).map (fun e => e.overall_score.getD 0)).sum =
      ((pre ++ ({ overall_score := some 0 } : CareerAssistant.Evaluation) :: post).map
        (fun e => e.overall_score.getD 0)).sum := by
    simp [h]
  have hlen : (pre ++ e :: post).length =
      (pre ++ ({ overall_score := some 0 } : CareerAssistant.Evaluation) :: post).length := by
    simp
  have hne : (pre ++ e :: post).isEmpty = false := by
    cases pre <;> rfl
  have hne2 : (pre ++ ({ overall_score := some 0 } :
      CareerAssistant.Evaluation) :: post).isEmpty = false := by
    cases pre <;> rfl
  constructor
  · simp only [CareerAssistant.calculate_interview_readiness_score, hne, hne2,
      Bool.false_eq_true, if_false, hsum, hlen]
  · simp only [CareerAssistant.calculate_interview_readiness_score, hne,
      Bool.false_eq_true, if_false]
    simp [Nat.add_assoc]

/-- Witness for C9 at a concrete input. -/
theorem spec_C9_missing_score_witness :
    CareerAssistant.calculate_interview_readiness_score
        ([CareerAssistant.mkEval 80] ++ { overall_score := none } :: []) =
      CareerAssistant.calculate_interview_readiness_score
        ([CareerAssistant.mkEval 80] ++ { overall_score := some 0 } :: []) ∧
    (CareerAssistant.calculate_interview_readiness_score
        ([CareerAssistant.mkEval 80] ++ { overall_score := none } :: [])).total_questions =
      some ([CareerAssistant.mkEval 80].length + ([] : List CareerAssistant.Evaluation).length + 1) :=
  spec_C9_missing_score [CareerAssistant.mkEval 80] [] { overall_score := none } rfl

namespace CareerAssistant

/-! ### Fallback answer evaluation (src/interview_prep.py, lines 189–217)

`word_count = len(user_answer.split())`: Python `str.split()` with no
argument splits on runs of whitespace and drops empty pieces.
-/

def wordCount (user_answer : String) : ℕ :=
  ((user_answer.split (fun c => c.isWhitespace)).filter (fun w => w ≠ "")).length

def fallbackScore (word_count : ℕ) : ℕ :=
  if word_count > 100 then 85
  else if word_count > 50 then 70
  else 55

def fallbackRating (word_count : ℕ) : String :=
  if word_count > 100 then "good"
  else if word_count > 50 then "satisfactory"
  else "needs_improvement"

structure FallbackEvaluation where
  overall_score : ℕ
  technical_depth : ℕ
  communication : ℕ
  problem_solving : ℕ
  relevance : ℕ
  strengths : List String
  improvements : List String
  detailed_feedback : String
  follow_up_suggestions : List String
  rating : String
deriving DecidableEq

def _create_fallback_evaluation (user_answer : String) : FallbackEvaluation :=
  let score := fallbackScore (wordCount user_answer)
  { overall_score := score
    technical_depth := score - 5
    communication := score + 5
    problem_solving := score
    relevance := score + 10
    strengths := ["Provided a response", "Showed engagement"]
    improvements := ["Add more specific examples", "Include technical details"]
    detailed_feedback := "Your answer shows engagement with the question. Consider adding more specific examples and technical details to strengthen your response."
    follow_up_suggestions := ["Use the STAR method for behavioral questions", "Include quantifiable results"]
    rating := fallbackRating (wordCount user_answer) }

/-! ### NER extraction with lexicon fallback (app/main.py, lines 748–755 and 793–800)

```python
if use_ner:
    try:
        skills = extract_skills_ner(text)
    except Exception as e:
        skills = extract_skills(text)
else:
    skills = extract_skills(text)
```

The NER collaborator may raise, so it is modelled as `Except`-valued; the
lexicon strategy `extract_skills` is total.
-/

def extract_with_ner_fallback (use_ner : Bool)
    (ner_extract : String → Except String (Finset String))
    (lexicon_extract : String → Finset String)
    (text : String) : Finset String :=
  if use_ner then
    match ner_extract text with
    | .ok skills => skills
    | .error _ => lexicon_extract text
  else lexicon_extract text

end CareerAssistant

/-- C10: the fallback answer evaluation's overall_score is a function of
the whitespace word count alone: `85` above 100 words, `70` above 50
words, `55` otherwise — always one of those three values, within
`[0, 100]`, and monotone non-decreasing in the word count. -/
theorem spec_C10_fallback_evaluation :
    (∀ s : String, (CareerAssistant._create_fallback_evaluation s).overall_score =
      CareerAssistant.fallbackScore (CareerAssistant.wordCount s)) ∧
    (∀ n : ℕ, CareerAssistant.fallbackScore n = 85 ∨
      CareerAssistant.fallbackScore n = 70 ∨ CareerAssistant.fallbackScore n = 55) ∧
    (∀ n : ℕ, CareerAssistant.fallbackScore n ≤ 100) ∧
    (∀ m n : ℕ, m ≤ n →
      CareerAssistant.fallbackScore m ≤ CareerAssistant.fallbackScore n) ∧
    (∀ n : ℕ, 100 < n → CareerAssistant.fallbackScore n = 85) ∧
    (∀ n : ℕ, 50 < n → n ≤ 100 → CareerAssistant.fallbackScore n = 70) ∧
    (∀ n : ℕ, n ≤ 50 → CareerAssistant.fallbackScore n = 55) := by
  refine ⟨fun s => rfl, fun n => ?_, fun n => ?_, fun m n h => ?_, fun n h => ?_,
    fun n h1 h2 => ?_, fun n h => ?_⟩
  · unfold CareerAssistant.fallbackScore
    split_ifs <;> simp
  · unfold CareerAssistant.fallbackScore
    split_ifs <;> omega
  · unfold CareerAssistant.fallbackScore
    split_ifs <;> omega
  · simp [CareerAssistant.fallbackScore, h]
  · unfold CareerAssistant.fallbackScore
    split_ifs <;> omega
  · unfold CareerAssistant.fallbackScore
    split_ifs <;> omega

/-- Witness for C10 at concrete word counts. -/
theorem spec_C10_fallback_evaluation_witness :
    CareerAssistant.fallbackScore 30 ≤ CareerAssistant.fallbackScore 60 ∧
    CareerAssistant.fallbackScore 101 = 85 ∧
    CareerAssistant.fallbackScore 60 = 70 ∧
    CareerAssistant.fallbackScore 30 = 55 :=
  ⟨spec_C10_fallback_evaluation.2.2.2.1 30 60 (by decide),
   spec_C10_fallback_evaluation.2.2.2.2.1 101 (by decide),
   spec_C10_fallback_evaluation.2.2.2.2.2.1 60 (by decide) (by decide),
   spec_C10_fallback_evaluation.2.2.2.2.2.2 30 (by decide)⟩

/-- C6: when the NER strategy fails with any exception, the caller
transparently falls back: the extraction result equals the lexicon
strategy's result on the same text, and extraction never raises. -/
theorem spec_C6_ner_fallback (use_ner : Bool)
    (ner_extract : String → Except String (Finset String))
    (lexicon_extract : String → Finset String)
    (text : String) (err : String)
    (h : ner_extract text = .error err) :
    CareerAssistant.extract_with_ner_fallback use_ner ner_extract
      lexicon_extract text = lexicon_extract text := by
  unfold CareerAssistant.extract_with_ner_fallback
  cases use_ner with
  | false => rfl
  | true => simp [h]

/-- Witness for C6 with a concrete always-failing NER collaborator. -/
theorem spec_C6_ner_fallback_witness :
    CareerAssistant.extract_with_ner_fallback true
      (fun _ => .error "spaCy model not available")
      (fun _ => ({"python"} : Finset String))
      "I know Python" = {"python"} :=
  spec_C6_ner_fallback true (fun _ => .error "spaCy model not available")
    (fun _ => ({"python"} : Finset String)) "I know Python"
    "spaCy model not available" rfl

namespace CareerAssistant

/-! ### Fit classifier adapter -/

inductive FitLabel where
  | goodFit
  | potentialFit
  | noFit
deriving DecidableEq

structure FitVerdict where
  prediction : FitLabel
  confidence : ℚ
  probabilities : FitLabel → ℚ
  model_type : String

/-- Modelled from the spec: the `fit_classifier` module imported by
`app/main.py` is missing from the sources, so `predict_fit` is modelled
from spec §4.4's fallback path — the primary path wraps an external
trained statistical model and is out of scope. With no model loaded the
adapter derives the verdict deterministically from `match_score` with the
fixed thresholds `≥70 → GoodFit`, `≥40 → PotentialFit`, else `NoFit`. -/
def fallbackPrediction (match_score : ℚ) : FitLabel :=
  if match_score ≥ 70 then .goodFit
  else if match_score ≥ 40 then .potentialFit
  else .noFit

/-- Modelled from the spec: distance from `match_score` to the nearest
decision threshold (`70` or `40`). -/
def distToThreshold (match_score : ℚ) : ℚ :=
  min |match_score - 70| |match_score - 40|

/-- Modelled from the spec: fallback confidence, proportional to the
distance from the nearest threshold and clipped to `[0.5, 0.95]`. -/
def fallbackConfidence (match_score : ℚ) : ℚ :=
  min (19/20) (max (1/2) (1/2 + distToThreshold match_score / 100))

/-- Modelled from the spec: `predict_fit` with no model loaded. The
predicted class carries the confidence as its probability and the
remaining mass is split evenly over the other two classes, so that the
distribution sums to one and its maximum is the prediction. -/
def predict_fit (resume_text job_description : String) (match_score : ℚ)
    (num_matched num_missing : ℕ) : FitVerdict :=
  let prediction := fallbackPrediction match_score
  let confidence := fallbackConfidence match_score
  { prediction := prediction
    confidence := confidence
    probabilities := fun l =>
      if l = prediction then confidence else (1 - confidence) / 2
    model_type := "Fallback" }

/-- Argmax over the three-class distribution, scanning in the fixed
priority order GoodFit, PotentialFit, NoFit so that probability ties
resolve optimistically. -/
def argmaxFit (probs : FitLabel → ℚ) : FitLabel :=
  if probs .goodFit ≥ probs .potentialFit ∧ probs .goodFit ≥ probs .noFit then
    .goodFit
  else if probs .potentialFit ≥ probs .noFit then .potentialFit
  else .noFit

lemma fallbackConfidence_bounds (match_score : ℚ) :
    1/2 ≤ fallbackConfidence match_score ∧
    fallbackConfidence match_score ≤ 19/20 := by
  unfold fallbackConfidence
  constructor
  · have h1 : (1:ℚ)/2 ≤ max (1/2) (1/2 + distToThreshold match_score / 100) :=
      le_max_left _ _
    have h2 : (1:ℚ)/2 ≤ 19/20 := by norm_num
    exact le_min h2 h1
  · exact min_le_left _ _

lemma point_dist_sum (p : FitLabel) (c : ℚ) :
    (if FitLabel.goodFit = p then c else (1 - c) / 2) +
    (if FitLabel.potentialFit = p then c else (1 - c) / 2) +
    (if FitLabel.noFit = p then c else (1 - c) / 2) = 1 := by
  cases p <;> simp <;> ring

lemma argmaxFit_point (p : FitLabel) (c : ℚ) (h : (1 - c) / 2 < c) :
    argmaxFit (fun l => if l = p then c else (1 - c) / 2) = p := by
  have hle : (1 - c) / 2 ≤ c := le_of_lt h
  have hnle : ¬ (c ≤ (1 - c) / 2) := not_le.mpr h
  cases p <;> simp [argmaxFit, hle, hnle]

end CareerAssistant

/-- C5: every verdict of `predict_fit` has probabilities summing to `1`
(hence within `1e-6` of `1`), and its prediction is the argmax of the
distribution under the fixed tie-priority GoodFit > PotentialFit > NoFit;
moreover its confidence stays in the clip range `[0.5, 0.95]`. -/
theorem spec_C5_fit_verdict (resume_text job_description : String)
    (match_score : ℚ) (num_matched num_missing : ℕ) :
    ((CareerAssistant.predict_fit resume_text job_description match_score
        num_matched num_missing).probabilities .goodFit +
      (CareerAssistant.predict_fit resume_text job_description match_score
        num_matched num_missing).probabilities .potentialFit +
      (CareerAssistant.predict_fit resume_text job_description match_score
        num_matched num_missing).probabilities .noFit) = 1 ∧
    (CareerAssistant.predict_fit resume_text job_description match_score
        num_matched num_missing).prediction =
      CareerAssistant.argmaxFit
        (CareerAssistant.predict_fit resume_text job_description match_score
          num_matched num_missing).probabilities ∧
    1/2 ≤ (CareerAssistant.predict_fit resume_text job_description match_score
        num_matched num_missing).confidence ∧
    (CareerAssistant.predict_fit resume_text job_description match_score
        num_matched num_missing).confidence ≤ 19/20 := by
  obtain ⟨hlo, hhi⟩ := CareerAssistant.fallbackConfidence_bounds match_score
  have hrest : (1 - CareerAssistant.fallbackConfidence match_score) / 2 <
      CareerAssistant.fallbackConfidence match_score := by linarith
  refine ⟨?_, ?_, hlo, hhi⟩
  · simp only [CareerAssistant.predict_fit]
    exact CareerAssistant.point_dist_sum
      (CareerAssistant.fallbackPrediction match_score)
      (CareerAssistant.fallbackConfidence match_score)
  · simp only [CareerAssistant.predict_fit]
    exact (CareerAssistant.argmaxFit_point
      (CareerAssistant.fallbackPrediction match_score)
      (CareerAssistant.fallbackConfidence match_score) hrest).symm

/-- Witness for C5 at the concrete input of spec scenario 4
(`match_score = 85`, no model loaded). -/
theorem spec_C5_fit_verdict_witness :
    ((CareerAssistant.predict_fit "resume" "job" 85 3 1).probabilities .goodFit +
      (CareerAssistant.predict_fit "resume" "job" 85 3 1).probabilities .potentialFit +
      (CareerAssistant.predict_fit "resume" "job" 85 3 1).probabilities .noFit) = 1 ∧
    (CareerAssistant.predict_fit "resume" "job" 85 3 1).prediction =
      CareerAssistant.argmaxFit
        (CareerAssistant.predict_fit "resume" "job" 85 3 1).probabilities ∧
    1/2 ≤ (CareerAssistant.predict_fit "resume" "job" 85 3 1).confidence ∧
    (CareerAssistant.predict_fit "resume" "job" 85 3 1).confidence ≤ 19/20 :=
  spec_C5_fit_verdict "resume" "job" 85 3 1
